import Mathlib

/-!
Shallow embedding of the Pulse issue tracker's core logic
(`internal/server/server.go` and the `db` issue repository):
the PUT/PATCH issue-update paths, the metrics aggregation of
`handleMetrics`, and the search/filter evaluation of `handleSearch`.
Timestamps are modelled as `Nat` instants, floating-point rates as `ℚ`.
-/

namespace Pulse

/-- The `db.Issue` record (part of the `db` package). -/
structure Issue where
  id : String
  workspaceID : String
  title : String
  description : String
  status : String
  priority : Int
  assigneeID : String
  estimate : Int
  cycleID : String
  labels : List String
  parentID : String
  createdAt : Nat
  updatedAt : Nat
  completedAt : Option Nat
  deriving Repr, DecidableEq

/-- The decoded PUT body of `handleIssue`: the Go code decodes a
`map[string]interface{}` and applies each key that is present with the
expected dynamic type; one optional slot per mutable field. -/
structure UpdateReq where
  title : Option String := none
  description : Option String := none
  status : Option String := none
  priority : Option Int := none
  assigneeID : Option String := none
  estimate : Option Int := none
  cycleID : Option String := none
  parentID : Option String := none
  labels : Option (List String) := none
  deriving Repr, DecidableEq

/-- The field-by-field mutation loop of `handleIssue`'s PUT branch
(server.go lines 264-293): each field present in the request overwrites
the issue's field, absent fields are left untouched.  No field is
validated. -/
def putApply (issue : Issue) (req : UpdateReq) : Issue :=
  { issue with
    title := req.title.getD issue.title
    description := req.description.getD issue.description
    status := req.status.getD issue.status
    priority := req.priority.getD issue.priority
    assigneeID := req.assigneeID.getD issue.assigneeID
    estimate := req.estimate.getD issue.estimate
    cycleID := req.cycleID.getD issue.cycleID
    parentID := req.parentID.getD issue.parentID
    labels := req.labels.getD issue.labels }

/-- `IssueRepository.Update`: sets `UpdatedAt` to the current time and
persists every field of the passed issue, including `CompletedAt`,
verbatim. -/
def repoUpdate (issue : Issue) (now : Nat) : Issue :=
  { issue with updatedAt := now }

/-- The full PUT update path: decode-and-apply followed by
`IssueRepository.Update`. -/
def applyUpdate (issue : Issue) (req : UpdateReq) (now : Nat) : Issue :=
  repoUpdate (putApply issue req) now

/-- `IssueRepository.UpdateStatus` (the PATCH status-only path): stores
the new status and the current time; `completed_at` is set to the
current time when the new status is `done` and to NULL otherwise. -/
def updateStatus (issue : Issue) (st : String) (now : Nat) : Issue :=
  { issue with
    status := st
    updatedAt := now
    completedAt := if st == "done" then some now else none }

/-! ## Metrics (`handleMetrics`, `IssueRepository.CountByStatus`) -/

/-- One group of the SQL `GROUP BY status` count in
`IssueRepository.CountByStatus`: the number of issues whose status
equals `st`. -/
def countByStatus (issues : List Issue) (st : String) : Nat :=
  (issues.filter (fun i => i.status == st)).length

/-- `totalIssues` in `handleMetrics`: the sum of the per-status counts
over every status value present (the range over the `CountByStatus`
map). -/
def totalIssuesOf (issues : List Issue) : Nat :=
  ((issues.map Issue.status).dedup.map (countByStatus issues)).sum

/-- `totalPoints` in `handleMetrics`: sum of all estimates. -/
def totalPointsOf (issues : List Issue) : Int :=
  (issues.map Issue.estimate).sum

/-- `completedPoints` in `handleMetrics`: sum of estimates of issues
whose status is `done`. -/
def completedPointsOf (issues : List Issue) : Int :=
  ((issues.filter (fun i => i.status == "done")).map Issue.estimate).sum

/-- `bugs` in `handleMetrics`: the number of issues having at least one
label equal to the literal string `bug` (the inner label loop breaks
after the first hit, so each issue counts once). -/
def bugCountOf (issues : List Issue) : Nat :=
  (issues.filter (fun i => i.labels.any (fun l => l == "bug"))).length

/-- `completionRate` in `handleMetrics`:
`float64(statusCounts["done"]) / float64(totalIssues) * 100` guarded by
`totalIssues > 0`, else `0`. -/
def completionRateOf (issues : List Issue) : ℚ :=
  if totalIssuesOf issues > 0 then
    ((countByStatus issues "done" : ℚ) / (totalIssuesOf issues : ℚ)) * 100
  else 0

/-- The metrics map assembled by `handleMetrics` (numeric fields only;
the echoed `workspace_id` is omitted). -/
structure Metrics where
  totalIssues : Nat
  backlogCount : Nat
  todoCount : Nat
  inProgressCount : Nat
  doneCount : Nat
  totalPoints : Int
  completedPoints : Int
  completionRate : ℚ
  bugCount : Nat
  deriving Repr, DecidableEq

/-- `Server.handleMetrics` on the issue set of a workspace. -/
def handleMetrics (issues : List Issue) : Metrics :=
  { totalIssues := totalIssuesOf issues
    backlogCount := countByStatus issues "backlog"
    todoCount := countByStatus issues "todo"
    inProgressCount := countByStatus issues "in_progress"
    doneCount := countByStatus issues "done"
    totalPoints := totalPointsOf issues
    completedPoints := completedPointsOf issues
    completionRate := completionRateOf issues
    bugCount := bugCountOf issues }

/-! ## Search (`Server.handleSearch`, `contains`) -/

/-- The `contains` helper of server.go: a manual substring scan,
`for i := 0; i <= len(s)-len(substr); i++ { if s[i:i+len(substr)] == substr }`.
Case-sensitive; the empty pattern matches everything. -/
def goContains (s sub : String) : Bool :=
  (List.range (s.length + 1 - sub.length)).any
    (fun i => (s.toList.drop i).take sub.length == sub.toList)

/-- `strings.HasPrefix`. -/
def hasPrefixStr (s pre : String) : Bool :=
  pre.toList.isPrefixOf s.toList

/-- `strings.TrimPrefix`: drops `pre` from the front of `s` when it is
a prefix, otherwise returns `s` unchanged. -/
def trimPrefixStr (s pre : String) : String :=
  if hasPrefixStr s pre then String.mk (s.toList.drop pre.length) else s

/-- The request parameters read by `handleSearch`: the free-text query
`q` and the explicit `status` / `label` / `assignee` query parameters
(absent parameters read as `""` via `URL.Query().Get`). -/
structure SearchParams where
  q : String
  status : String
  label : String
  assignee : String
  deriving Repr, DecidableEq

/-- The filters that `handleSearch` ends up applying. -/
structure ResolvedFilters where
  query : String
  statusFilter : String
  labelFilter : String
  assigneeFilter : String
  deriving Repr, DecidableEq

/-- The prefix-parsing block of `handleSearch` (lines 497-510): when the
query is non-empty and starts with `status:` / `label:` / `assignee:`
(checked in that order), the remainder becomes the corresponding filter
and the query is cleared. -/
def parsePrefixFilters (q : String) : ResolvedFilters :=
  if q == "" then ⟨q, "", "", ""⟩
  else if hasPrefixStr q "status:" then ⟨"", trimPrefixStr q "status:", "", ""⟩
  else if hasPrefixStr q "label:" then ⟨"", "", trimPrefixStr q "label:", ""⟩
  else if hasPrefixStr q "assignee:" then ⟨"", "", "", trimPrefixStr q "assignee:"⟩
  else ⟨q, "", "", ""⟩

/-- Filter resolution in `handleSearch` (lines 497-521): prefix parsing
first, then each explicit query parameter is consulted only when the
prefix-parsed filter is still empty. -/
def resolveFilters (p : SearchParams) : ResolvedFilters :=
  let f := parsePrefixFilters p.q
  { query := f.query
    statusFilter := if f.statusFilter == "" then p.status else f.statusFilter
    labelFilter := if f.labelFilter == "" then p.label else f.labelFilter
    assigneeFilter := if f.assigneeFilter == "" then p.assignee else f.assigneeFilter }

/-- The per-issue match test of `handleSearch` (lines 532-564):
`matches` starts true and each active filter may clear it — a
conjunction of the text test (title OR description), exact status,
substring label, and exact assignee tests; empty filters are
inactive. -/
def issueMatches (f : ResolvedFilters) (issue : Issue) : Bool :=
  (f.query == "" || (goContains issue.title f.query || goContains issue.description f.query))
  && (f.statusFilter == "" || issue.status == f.statusFilter)
  && (f.labelFilter == "" || issue.labels.any (fun l => goContains l f.labelFilter))
  && (f.assigneeFilter == "" || issue.assigneeID == f.assigneeFilter)

/-- `Server.handleSearch` on the issue set of a workspace: resolve the
filters, keep the matching issues in input order. -/
def handleSearch (issues : List Issue) (p : SearchParams) : List Issue :=
  issues.filter (issueMatches (resolveFilters p))

/-! ## Concrete inputs used by the claim theorems -/

/-- A plain issue with the given id, status, estimate and labels;
the invariant `completedAt = none ↔ status ≠ done` need not hold, as in
the code nothing establishes it. -/
def mkIssue (idStr st : String) (est : Int) (ls : List String) : Issue :=
  { id := idStr, workspaceID := "default", title := "t", description := "",
    status := st, priority := 0, assigneeID := "", estimate := est, cycleID := "",
    labels := ls, parentID := "", createdAt := 0, updatedAt := 0, completedAt := none }

def c1Issue : Issue := mkIssue "c1" "todo" 0 []

def c1Req : UpdateReq := { status := some "done" }

def c2Issues : List Issue :=
  [mkIssue "a" "todo" 3 [], mkIssue "b" "done" 5 [], mkIssue "c" "in_progress" 8 []]

def c3Issue : Issue := mkIssue "c3" "todo" 0 []

def c3Req : UpdateReq := { status := some "wontfix" }

def c4Params : SearchParams :=
  { q := "status:todo", status := "done", label := "", assignee := "" }

def c4LabelParams : SearchParams :=
  { q := "label:ui", status := "", label := "backend", assignee := "" }

def c4AssigneeParams : SearchParams :=
  { q := "assignee:bob", status := "", label := "", assignee := "alice" }

def c4PlainParams : SearchParams :=
  { q := "dark", status := "todo", label := "", assignee := "" }

def c5Issue1 : Issue :=
  { id := "s1", workspaceID := "default", title := "Fix login bug", description := "",
    status := "todo", priority := 0, assigneeID := "", estimate := 0, cycleID := "",
    labels := ["bug"], parentID := "", createdAt := 0, updatedAt := 0, completedAt := none }

def c5Issue2 : Issue :=
  { id := "s2", workspaceID := "default", title := "Add dark mode", description := "",
    status := "backlog", priority := 0, assigneeID := "", estimate := 0, cycleID := "",
    labels := ["feature"], parentID := "", createdAt := 0, updatedAt := 0,
    completedAt := none }

def c5Issues : List Issue := [c5Issue1, c5Issue2]

def c6Issue : Issue :=
  { mkIssue "c6" "todo" 0 [] with title := "Original title" }

def c6Req : UpdateReq := { title := some "" }

def c7Issue : Issue := mkIssue "c7" "backlog" 1 []

def c8IssueA : Issue := { mkIssue "p1" "done" 2 ["bug"] with completedAt := some 9 }

def c8IssueB : Issue := mkIssue "p2" "todo" 3 ["feature"]

/-! ## C1 -/

/-- C1, counterexample: starting from a `todo` issue with null
`completed_at`, a PUT update whose changes set `status` to `done` leaves
`completed_at` null, so afterwards `completed_at` being non-null is not
equivalent to the status being `done`. -/
theorem c1_invariant_counterexample :
    ¬ (((applyUpdate c1Issue c1Req 5).completedAt ≠ none) ↔
      (applyUpdate c1Issue c1Req 5).status = "done") := by decide

/-- C1, amended: after every status-only update (`applyStatusOnly` /
PATCH, i.e. `IssueRepository.UpdateStatus`), `completed_at` is non-null
iff the status equals `done`; the full-update path (`applyUpdate` /
PUT) leaves `completed_at` exactly as it was, so it maintains the
equivalence only when the stored `completed_at` already matches the new
status. -/
theorem c1_completedAt_invariant (issue : Issue) (st : String) (now : Nat)
    (req : UpdateReq) (t : Nat) :
    (((updateStatus issue st now).completedAt ≠ none) ↔
      (updateStatus issue st now).status = "done") ∧
    (applyUpdate issue req t).completedAt = issue.completedAt := by
  refine ⟨?_, rfl⟩
  simp only [updateStatus]
  by_cases h : st = "done" <;> simp [h]

/-! ## C2 -/

/-- C2, counterexample: on the velocity scenario — estimates `[3, 5, 8]`
with only the 5-point issue `done` — `handleMetrics` does not report a
completion rate of `31.25` (i.e. `125/4`), because the code divides the
`done` status count by the total issue count, not completed points by
planned points. -/
theorem c2_completionRate_counterexample :
    (handleMetrics c2Issues).completionRate ≠ 125 / 4 := by
  have h1 : countByStatus c2Issues "done" = 1 := by decide
  have h2 : totalIssuesOf c2Issues = 3 := by decide
  show completionRateOf c2Issues ≠ 125 / 4
  unfold completionRateOf
  rw [h1, h2]
  norm_num

/-- C2, amended: `completion_rate` is computed as the `done` status
count divided by the total issue count times 100 when the total is
positive (and `0` for an empty issue set); on the scenario the metrics
are `total_points = 16`, `completed_points = 5`, `total_issues = 3`,
`done_count = 1` and `completion_rate = 100/3 ≈ 33.33`; no carryover
value is produced. -/
theorem c2_velocity_scenario :
    (handleMetrics c2Issues).totalPoints = 16 ∧
    (handleMetrics c2Issues).completedPoints = 5 ∧
    (handleMetrics c2Issues).totalIssues = 3 ∧
    (handleMetrics c2Issues).doneCount = 1 ∧
    (handleMetrics c2Issues).completionRate = 100 / 3 ∧
    (handleMetrics ([] : List Issue)).completionRate = 0 := by
  refine ⟨by decide, by decide, by decide, by decide, ?_, ?_⟩
  · have h1 : countByStatus c2Issues "done" = 1 := by decide
    have h2 : totalIssuesOf c2Issues = 3 := by decide
    show completionRateOf c2Issues = 100 / 3
    unfold completionRateOf
    rw [h1, h2]
    norm_num
  · have h0 : totalIssuesOf ([] : List Issue) = 0 := by decide
    show completionRateOf [] = 0
    unfold completionRateOf
    rw [h0]
    norm_num

/-! ## C3 -/

/-- C3, counterexample: a PUT update carrying the unrecognized status
`wontfix` succeeds and stores it verbatim — the issue's status field is
modified, and no `InvalidStatus` failure path exists in the code. -/
theorem c3_noStatusValidation_counterexample :
    (applyUpdate c3Issue c3Req 7).status = "wontfix" ∧
    (applyUpdate c3Issue c3Req 7).status ≠ c3Issue.status := by decide

/-- C3, amended: neither update path validates the status value — any
string supplied as the status, recognized or not, is stored verbatim by
both the full-update path and the status-only path. -/
theorem c3_statusStoredVerbatim (issue : Issue) (req : UpdateReq) (s : String)
    (now : Nat) (h : req.status = some s) :
    (applyUpdate issue req now).status = s ∧
    (updateStatus issue s now).status = s := by
  refine ⟨?_, rfl⟩
  show (putApply issue req).status = s
  simp [putApply, h]

/-- C3 witness. -/
theorem c3_statusStoredVerbatim_witness :
    (applyUpdate c3Issue c3Req 7).status = "wontfix" ∧
    (updateStatus c3Issue "wontfix" 7).status = "wontfix" :=
  c3_statusStoredVerbatim c3Issue c3Req "wontfix" 7 rfl

/-! ## C4 -/

/-- C4, counterexample: with query `status:todo` and an explicit
`status=done` parameter, the applied status filter is the prefix-parsed
`todo`, not the explicitly supplied `done`. -/
theorem c4_precedence_counterexample :
    (resolveFilters c4Params).statusFilter = "todo" ∧
    (resolveFilters c4Params).statusFilter ≠ c4Params.status := by decide

/-- A query that carries a (non-empty) recognized prefix is itself
non-empty. -/
theorem beq_empty_false_of_hasPrefixStr {q pre : String}
    (h : hasPrefixStr q pre = true) (hpre : hasPrefixStr "" pre = false) :
    (q == "") = false := by
  cases hx : q == "" with
  | false => rfl
  | true =>
      have he : q = "" := eq_of_beq hx
      rw [he] at h
      rw [h] at hpre
      exact absurd hpre (by simp)

/-- C4, amended: a non-empty prefix-parsed filter takes precedence —
for each recognized prefix (`status:`, `label:`, `assignee:`, checked
in that order), when the query carries it and the remainder is
non-empty, the applied filter of that kind is the remainder regardless
of any explicitly supplied parameter of the same name; an explicit
parameter is applied exactly when the corresponding prefix-parsed
filter is empty — when the query carries no recognized prefix, when the
prefix's remainder is empty, or for the two filter kinds a recognized
prefix did not set. -/
theorem c4_prefixParsedWins (p : SearchParams) :
    (hasPrefixStr p.q "status:" = true →
      ((trimPrefixStr p.q "status:" ≠ "" →
          (resolveFilters p).statusFilter = trimPrefixStr p.q "status:") ∧
        (trimPrefixStr p.q "status:" = "" →
          (resolveFilters p).statusFilter = p.status) ∧
        (resolveFilters p).labelFilter = p.label ∧
        (resolveFilters p).assigneeFilter = p.assignee)) ∧
    (hasPrefixStr p.q "status:" = false → hasPrefixStr p.q "label:" = true →
      ((trimPrefixStr p.q "label:" ≠ "" →
          (resolveFilters p).labelFilter = trimPrefixStr p.q "label:") ∧
        (trimPrefixStr p.q "label:" = "" →
          (resolveFilters p).labelFilter = p.label) ∧
        (resolveFilters p).statusFilter = p.status ∧
        (resolveFilters p).assigneeFilter = p.assignee)) ∧
    (hasPrefixStr p.q "status:" = false → hasPrefixStr p.q "label:" = false →
      hasPrefixStr p.q "assignee:" = true →
      ((trimPrefixStr p.q "assignee:" ≠ "" →
          (resolveFilters p).assigneeFilter = trimPrefixStr p.q "assignee:") ∧
        (trimPrefixStr p.q "assignee:" = "" →
          (resolveFilters p).assigneeFilter = p.assignee) ∧
        (resolveFilters p).statusFilter = p.status ∧
        (resolveFilters p).labelFilter = p.label)) ∧
    (hasPrefixStr p.q "status:" = false → hasPrefixStr p.q "label:" = false →
      hasPrefixStr p.q "assignee:" = false →
      ((resolveFilters p).statusFilter = p.status ∧
        (resolveFilters p).labelFilter = p.label ∧
        (resolveFilters p).assigneeFilter = p.assignee)) := by
  refine ⟨?_, ?_, ?_, ?_⟩
  · intro h1
    have hq : (p.q == "") = false :=
      beq_empty_false_of_hasPrefixStr h1 (by decide)
    refine ⟨fun hr => ?_, fun hr => ?_, ?_, ?_⟩
    · simp [resolveFilters, parsePrefixFilters, hq, h1, hr]
    · simp [resolveFilters, parsePrefixFilters, hq, h1, hr]
    · simp [resolveFilters, parsePrefixFilters, hq, h1]
    · simp [resolveFilters, parsePrefixFilters, hq, h1]
  · intro h1 h2
    have hq : (p.q == "") = false :=
      beq_empty_false_of_hasPrefixStr h2 (by decide)
    refine ⟨fun hr => ?_, fun hr => ?_, ?_, ?_⟩
    · simp [resolveFilters, parsePrefixFilters, hq, h1, h2, hr]
    · simp [resolveFilters, parsePrefixFilters, hq, h1, h2, hr]
    · simp [resolveFilters, parsePrefixFilters, hq, h1, h2]
    · simp [resolveFilters, parsePrefixFilters, hq, h1, h2]
  · intro h1 h2 h3
    have hq : (p.q == "") = false :=
      beq_empty_false_of_hasPrefixStr h3 (by decide)
    refine ⟨fun hr => ?_, fun hr => ?_, ?_, ?_⟩
    · simp [resolveFilters, parsePrefixFilters, hq, h1, h2, h3, hr]
    · simp [resolveFilters, parsePrefixFilters, hq, h1, h2, h3, hr]
    · simp [resolveFilters, parsePrefixFilters, hq, h1, h2, h3]
    · simp [resolveFilters, parsePrefixFilters, hq, h1, h2, h3]
  · intro h1 h2 h3
    cases hx : p.q == "" with
    | true => simp [resolveFilters, parsePrefixFilters, hx]
    | false => simp [resolveFilters, parsePrefixFilters, hx, h1, h2, h3]

/-- C4 witness: the `status:` prefix overrides an explicit `status`
parameter, the `label:` and `assignee:` prefixes override their
explicit parameters, and with no recognized prefix the explicit
`status` parameter is applied. -/
theorem c4_prefixParsedWins_witness :
    (resolveFilters c4Params).statusFilter = trimPrefixStr c4Params.q "status:" ∧
    (resolveFilters c4LabelParams).labelFilter
      = trimPrefixStr c4LabelParams.q "label:" ∧
    (resolveFilters c4AssigneeParams).assigneeFilter
      = trimPrefixStr c4AssigneeParams.q "assignee:" ∧
    (resolveFilters c4PlainParams).statusFilter = c4PlainParams.status :=
  ⟨((c4_prefixParsedWins c4Params).1 (by decide)).1 (by decide),
    ((c4_prefixParsedWins c4LabelParams).2.1 (by decide) (by decide)).1 (by decide),
    ((c4_prefixParsedWins c4AssigneeParams).2.2.1
        (by decide) (by decide) (by decide)).1 (by decide),
    ((c4_prefixParsedWins c4PlainParams).2.2.2
        (by decide) (by decide) (by decide)).1⟩

/-! ## C5 -/

/-- C5, counterexample: on the two-issue scenario, query `"e"` with no
filters returns only the second issue — the title `Fix login bug`
contains no letter `e`, so the claimed "returns both" is false. -/
theorem c5_query_e_counterexample :
    handleSearch c5Issues ⟨"e", "", "", ""⟩ = [c5Issue2] ∧
    handleSearch c5Issues ⟨"e", "", "", ""⟩ ≠ c5Issues := by decide

/-- C5, amended: text matching is case-sensitive substring containment
against title OR description and an empty query matches every issue;
on the scenario, query `login` returns only the first issue, label
filter `bug` returns only the first, query `e` returns only the second
(only `Add dark mode` contains an `e`), and query `bug` with status
filter `done` returns the empty set. -/
theorem c5_search_scenarios (issues : List Issue) :
    handleSearch issues ⟨"", "", "", ""⟩ = issues ∧
    goContains "Fix login bug" "Login" = false ∧
    handleSearch c5Issues ⟨"login", "", "", ""⟩ = [c5Issue1] ∧
    handleSearch c5Issues ⟨"", "", "bug", ""⟩ = [c5Issue1] ∧
    handleSearch c5Issues ⟨"e", "", "", ""⟩ = [c5Issue2] ∧
    handleSearch c5Issues ⟨"bug", "done", "", ""⟩ = [] := by
  refine ⟨?_, by decide, by decide, by decide, by decide, by decide⟩
  simp [handleSearch, resolveFilters, parsePrefixFilters, issueMatches]

/-! ## C6 -/

/-- C6, counterexample: a PUT update carrying an empty title succeeds
and stores the empty string — the issue is modified, and no
`InvalidField` failure path exists in the code. -/
theorem c6_emptyTitle_counterexample :
    (applyUpdate c6Issue c6Req 3).title = "" ∧
    (applyUpdate c6Issue c6Req 3).title ≠ c6Issue.title := by decide

/-- C6, amended: the full-update path performs no title validation —
any title supplied in the changes, including one that is empty after
trimming, is stored verbatim. -/
theorem c6_titleStoredVerbatim (issue : Issue) (req : UpdateReq) (s : String)
    (now : Nat) (h : req.title = some s) :
    (applyUpdate issue req now).title = s := by
  show (putApply issue req).title = s
  simp [putApply, h]

/-- C6 witness. -/
theorem c6_titleStoredVerbatim_witness :
    (applyUpdate c6Issue c6Req 3).title = "" :=
  c6_titleStoredVerbatim c6Issue c6Req "" 3 rfl

/-! ## C7 -/

/-- C7: both update paths set `updated_at` to the mutation time of that
update (whether or not any business field changed value), so across
successive updates taken at non-decreasing clock readings `updated_at`
never decreases. -/
theorem c7_updatedAt_setToNow (issue : Issue) (req : UpdateReq) (st : String)
    (t t1 t2 : Nat) (h : t1 ≤ t2) :
    (applyUpdate issue req t).updatedAt = t ∧
    (updateStatus issue st t).updatedAt = t ∧
    (applyUpdate issue req t1).updatedAt ≤
      (updateStatus (applyUpdate issue req t1) st t2).updatedAt :=
  ⟨rfl, rfl, h⟩

/-- C7 witness. -/
theorem c7_updatedAt_setToNow_witness :
    (applyUpdate c7Issue {} 4).updatedAt = 4 ∧
    (updateStatus c7Issue "todo" 4).updatedAt = 4 ∧
    (applyUpdate c7Issue {} 1).updatedAt ≤
      (updateStatus (applyUpdate c7Issue {} 1) "todo" 2).updatedAt :=
  c7_updatedAt_setToNow c7Issue {} "todo" 4 1 2 (by decide)

/-! ## C8 -/

/-- Per-status counts are invariant under permutation of the issue
list. -/
theorem countByStatus_perm {l1 l2 : List Issue} (h : l1.Perm l2) (st : String) :
    countByStatus l1 st = countByStatus l2 st :=
  (h.filter _).length_eq

/-- The summed status-count total is invariant under permutation of the
issue list. -/
theorem totalIssuesOf_perm {l1 l2 : List Issue} (h : l1.Perm l2) :
    totalIssuesOf l1 = totalIssuesOf l2 := by
  unfold totalIssuesOf
  have hfun : countByStatus l1 = countByStatus l2 :=
    funext (fun st => countByStatus_perm h st)
  rw [hfun]
  exact (((h.map Issue.status).dedup).map (countByStatus l2)).sum_eq

/-- C8: the metrics computation is order-independent — permuting the
issue collection yields identical status counts, totals, point sums,
completion rate and bug count. -/
theorem c8_metrics_permInvariant (l1 l2 : List Issue) (h : l1.Perm l2) :
    handleMetrics l1 = handleMetrics l2 := by
  have hc : ∀ st, countByStatus l1 st = countByStatus l2 st := countByStatus_perm h
  have ht : totalIssuesOf l1 = totalIssuesOf l2 := totalIssuesOf_perm h
  have htp : totalPointsOf l1 = totalPointsOf l2 := (h.map Issue.estimate).sum_eq
  have hcp : completedPointsOf l1 = completedPointsOf l2 :=
    ((h.filter _).map Issue.estimate).sum_eq
  have hb : bugCountOf l1 = bugCountOf l2 := (h.filter _).length_eq
  have hr : completionRateOf l1 = completionRateOf l2 := by
    unfold completionRateOf
    rw [hc "done", ht]
  unfold handleMetrics
  rw [hc "backlog", hc "todo", hc "in_progress", hc "done", ht, htp, hcp, hb, hr]

/-- C8 witness. -/
theorem c8_metrics_permInvariant_witness :
    handleMetrics [c8IssueA, c8IssueB] = handleMetrics [c8IssueB, c8IssueA] :=
  c8_metrics_permInvariant [c8IssueA, c8IssueB] [c8IssueB, c8IssueA]
    (List.Perm.swap c8IssueB c8IssueA [])

/-! ## C9 -/

/-- C9: the full (PUT) update path never touches `completed_at` — after
any `applyUpdate`, `completed_at` equals its value before the update,
whatever the changes did to the status field. -/
theorem c9_put_preserves_completedAt (issue : Issue) (req : UpdateReq) (now : Nat) :
    (applyUpdate issue req now).completedAt = issue.completedAt := rfl

/-! ## C10 -/

/-- C10: after a status-only update, `completed_at` is determined
solely by the new status and the mutation time — it is the mutation
time when the new status is `done` and null otherwise, independent of
the issue's previous status and previous `completed_at` (two issues
updated with the same status and time get the same `completed_at`). -/
theorem c10_updateStatus_completedAt (i1 i2 : Issue) (st : String) (now : Nat) :
    (updateStatus i1 st now).completedAt
      = (if st = "done" then some now else none) ∧
    (updateStatus i1 st now).completedAt = (updateStatus i2 st now).completedAt := by
  refine ⟨?_, rfl⟩
  simp only [updateStatus]
  by_cases h : st = "done" <;> simp [h]

end Pulse
